import Mathlib

/-
Shallow embedding of the router-reboot automation script (src/main.py).

The script is a linear procedure: validate environment configuration,
connect to a remote Selenium endpoint with retries, log into a router
admin page, perform five guarded clicks in a fixed order, capture
diagnostic artifacts on failure, and tear the session down.

External effects (the remote browser, the clock, the filesystem) are
modelled by an oracle `Env` giving the outcome of each external
operation, and a run is summarised by an exit code, a trace of events
in execution order, and the exception caught by the top-level handler
(if any).
-/

namespace MiWifiReboot

/-- Locator strategies used by the script (selenium By). -/
inductive By where
  | XPATH
  | ID
  | CSS_SELECTOR
deriving DecidableEq, Repr

/-- Exceptions that can arise during the automation run. -/
inductive Exc where
  | TimeoutException
  | InvalidSelectorException
  | WebDriverException
  | JavascriptException
  | ElementClickInterceptedException
  | RuntimeError (msg : String)
  | OtherException
deriving DecidableEq, Repr

/-- Observable events of a run, in execution order. -/
inductive Event where
  | connectAttempt (i : Nat)
  | navigate
  | waitPasswordVisible
  | clearPassword
  | sendPasswordKeys
  | clickLoginButton
  | waitPasswordInvisible
  | overlayWait (gone : Bool)
  | overlayWarning
  | interStepPause
  | stepWait (desc : String) (timeout : Nat)
  | scrolledIntoView (desc : String)
  | briefPause
  | clicked (desc : String)
  | screenshotSaved (ts : String)
  | pageSourceSaved (ts : String)
  | debugPause (secs : Int)
  | quitSession
deriving DecidableEq, Repr

/-- Outcome of one `webdriver.Remote` session-creation attempt. -/
inductive ConnectOutcome where
  | ok
  | transportError
  | otherError
deriving DecidableEq, Repr

/-- Result of `create_driver_with_retry`. -/
inductive ConnectResult where
  | connected
  | exhausted
  | raised (e : Exc)
deriving DecidableEq, Repr

/-- Outcome of the wait-scroll-click interaction inside `wait_and_click`
for a given locator: the wait may time out (TimeoutException) or reject
the selector (InvalidSelectorException), the scroll script or the click
itself may raise, or everything succeeds. -/
inductive WaitClickOutcome where
  | clickable
  | waitTimeout
  | invalidSelector
  | scrollRaises
  | clickRaises
deriving DecidableEq, Repr

/-- Oracle for all external effects of one run. -/
structure Env where
  connect : Nat → ConnectOutcome
  getOk : Bool
  passwordFieldAppears : Bool
  clearOk : Bool
  sendKeysOk : Bool
  loginClickOk : Bool
  passwordFieldDisappears : Bool
  overlayGoneAfterLogin : Bool
  overlayGoneAfterFirstStep : Bool
  clickOutcome : By × String → WaitClickOutcome
  timestamp : String
  makedirsOk : Bool
  screenshotOk : Bool
  pageSourceWriteOk : Bool

/-- Environment-derived configuration, read once at startup. -/
structure Config where
  SELENIUM_REMOTE_URL : Option String
  ROUTER_ADMIN_URL : Option String
  ROUTER_PASSWORD : Option String
  DEBUG_PAUSE_SECONDS : Int
  ERROR_ARTIFACTS_DIR : String
deriving DecidableEq, Repr

/-- Python truthiness of an optional environment variable: an unset
variable and the empty string are both falsy. -/
def truthy : Option String → Bool
  | none => false
  | some s => !s.isEmpty

/-- Module-level validation: `not all([SELENIUM_REMOTE_URL, ROUTER_ADMIN_URL, ROUTER_PASSWORD])`. -/
def envVarsValid (cfg : Config) : Bool :=
  truthy cfg.SELENIUM_REMOTE_URL && truthy cfg.ROUTER_ADMIN_URL && truthy cfg.ROUTER_PASSWORD

/-- Embedding of `wait_for_overlay_to_disappear`: waits for the overlay
to be absent; on timeout it logs a warning and returns normally. -/
def wait_for_overlay_to_disappear (gone : Bool) : List Event :=
  if gone then [Event.overlayWait true]
  else [Event.overlayWait false, Event.overlayWarning]

/-- Default timeout of `wait_and_click` in the source. -/
def defaultClickTimeout : Nat := 10

/-- Embedding of `wait_and_click`: wait for the element to be clickable,
scroll it into center view, sleep 0.5s, click.  TimeoutException and
InvalidSelectorException are caught and turned into a `false` return;
an exception from the scroll script or from the click itself
propagates (`Except.error`). -/
def wait_and_click (env : Env) (strategy : By) (value : String) (desc : String)
    (timeout : Nat) : Except Exc Bool × List Event :=
  match env.clickOutcome (strategy, value) with
  | .waitTimeout => (.ok false, [Event.stepWait desc timeout])
  | .invalidSelector => (.ok false, [Event.stepWait desc timeout])
  | .scrollRaises => (.error .JavascriptException, [Event.stepWait desc timeout])
  | .clickRaises =>
      (.error .ElementClickInterceptedException,
        [Event.stepWait desc timeout, Event.scrolledIntoView desc, Event.briefPause])
  | .clickable =>
      (.ok true,
        [Event.stepWait desc timeout, Event.scrolledIntoView desc, Event.briefPause,
         Event.clicked desc])

/-- Connection loop of `create_driver_with_retry`: `for attempt in range(retries)`,
catching WebDriverException (retry after a fixed delay); any other
exception from session creation propagates; falling off the loop is
`exit(2)` (modelled as `ConnectResult.exhausted`). -/
def connectLoop (env : Env) (attempt : Nat) : Nat → List Event × ConnectResult
  | 0 => ([], .exhausted)
  | Nat.succ fuel =>
    match env.connect attempt with
    | .ok => ([Event.connectAttempt attempt], .connected)
    | .otherError => ([Event.connectAttempt attempt], .raised .OtherException)
    | .transportError =>
        let r := connectLoop env (attempt + 1) fuel
        (Event.connectAttempt attempt :: r.1, r.2)

/-- Embedding of `create_driver_with_retry` (retries default 10, delay 2). -/
def create_driver_with_retry (env : Env) (retries : Nat) (delay : Nat) :
    List Event × ConnectResult :=
  connectLoop env 0 retries

/-- Embedding of `save_debug_artifacts`: one timestamp computed once, then
makedirs, screenshot, page-source write, inside a try that catches and
logs any exception (so a failure mid-way stops the later writes but
never propagates). -/
def save_debug_artifacts (env : Env) : List Event :=
  if env.makedirsOk then
    if env.screenshotOk then
      if env.pageSourceWriteOk then
        [Event.screenshotSaved env.timestamp, Event.pageSourceSaved env.timestamp]
      else [Event.screenshotSaved env.timestamp]
    else []
  else []

/-- One navigation step: locator strategy, locator value, description. -/
structure NavStep where
  strategy : By
  value : String
  desc : String
deriving DecidableEq, Repr

/-- The five navigation steps of the script, in their fixed order. -/
def steps : List NavStep :=
  [⟨By.XPATH, "//div[@id=\x27nav\x27]//a[contains(text(), \x27Advanced\x27)]",
     "Advanced navbar item"⟩,
   ⟨By.XPATH, "//div[contains(@class, \x27cpe-set-nav\x27)]//li[.//span[text()=\x27System settings\x27]]",
     "System settings menu"⟩,
   ⟨By.ID, "btnReboot", "Reboot button"⟩,
   ⟨By.XPATH, "//button[contains(@class, \x27btn-primary\x27) and contains(., \x27Reboot\x27)]",
     "Reboot confirmation 1"⟩,
   ⟨By.XPATH, "//a[@data-id=\x27ok\x27 and contains(@class, \x27btn-primary\x27)]",
     "Reboot confirmation 2 (OK)"⟩]

/-- Descriptions of the five navigation steps, in order. -/
def stepDescs : List String := steps.map NavStep.desc

/-- Navigation loop of `main`: `for i, (by, value, desc) in enumerate(steps)`,
with a 1s pause before every step but the first, a RuntimeError raised on a
`false` return from the guarded click, and an overlay wait after the first
step only. -/
def navLoop (env : Env) : List NavStep → Nat → List Event × Option Exc
  | [], _ => ([], none)
  | s :: rest, i =>
    let pre : List Event := if i > 0 then [Event.interStepPause] else []
    let w := wait_and_click env s.strategy s.value s.desc defaultClickTimeout
    match w.1 with
    | .error e => (pre ++ w.2, some e)
    | .ok false => (pre ++ w.2, some (Exc.RuntimeError ("Failed at step: " ++ s.desc)))
    | .ok true =>
        let post : List Event :=
          if i = 0 then wait_for_overlay_to_disappear env.overlayGoneAfterFirstStep else []
        let r2 := navLoop env rest (i + 1)
        (pre ++ w.2 ++ post ++ r2.1, r2.2)

/-- Sequencing of two fallible phases: if the first raised, the second never
runs; otherwise events accumulate. -/
def seqE (r : List Event × Option Exc) (k : Unit → List Event × Option Exc) :
    List Event × Option Exc :=
  match r.2 with
  | some e => (r.1, some e)
  | none => (r.1 ++ (k ()).1, (k ()).2)

/-- One primitive phase action: it emits its event and either succeeds or
raises the given exception. -/
def attemptStep (ev : Event) (ok : Bool) (e : Exc) : List Event × Option Exc :=
  ([ev], if ok then none else some e)

/-- Body of `main`'s try block after the driver exists: `driver.get`, the
login sequence (visibility wait, clear, send_keys, login click,
invisibility wait), the post-login overlay wait, then the navigation
loop over the five steps. -/
def loginAndNavigate (env : Env) : List Event × Option Exc :=
  seqE (attemptStep Event.navigate env.getOk .WebDriverException) fun _ =>
  seqE (attemptStep Event.waitPasswordVisible env.passwordFieldAppears .TimeoutException) fun _ =>
  seqE (attemptStep Event.clearPassword env.clearOk .WebDriverException) fun _ =>
  seqE (attemptStep Event.sendPasswordKeys env.sendKeysOk .WebDriverException) fun _ =>
  seqE (attemptStep Event.clickLoginButton env.loginClickOk .WebDriverException) fun _ =>
  seqE (attemptStep Event.waitPasswordInvisible env.passwordFieldDisappears .TimeoutException) fun _ =>
  seqE (wait_for_overlay_to_disappear env.overlayGoneAfterLogin, none) fun _ =>
  navLoop env steps 0

/-- Events of the optional diagnostic pause (`DEBUG_PAUSE_SECONDS > 0`). -/
def pauseEvents (cfg : Config) : List Event :=
  if cfg.DEBUG_PAUSE_SECONDS > 0 then [Event.debugPause cfg.DEBUG_PAUSE_SECONDS] else []

/-- Summary of one run: process exit code, trace of events, and the
exception caught by the top-level `except Exception` handler, if any. -/
structure RunResult where
  exitCode : Nat
  trace : List Event
  caught : Option Exc
deriving DecidableEq, Repr

/-- Continuation of `main` once the driver exists: on success the finally
block quits and the process exits 0; on a caught exception, diagnostics
are saved, the optional pause happens, then the finally block quits and
the process exits 1. -/
def afterConnect (cfg : Config) (env : Env) (cevs : List Event) : RunResult :=
  match loginAndNavigate env with
  | (evs, none) => ⟨0, cevs ++ evs ++ [Event.quitSession], none⟩
  | (evs, some e) =>
      ⟨1, cevs ++ evs ++ save_debug_artifacts env ++ pauseEvents cfg ++ [Event.quitSession],
        some e⟩

/-- Embedding of `main`: create the driver with retries (exhaustion is
`exit(2)`, a SystemExit that bypasses the `except Exception` handler and,
with no driver, skips the quit; a non-WebDriverException from session
creation is caught with no driver, so no diagnostics and no quit). -/
def main (cfg : Config) (env : Env) : RunResult :=
  match create_driver_with_retry env 10 2 with
  | (cevs, ConnectResult.connected) => afterConnect cfg env cevs
  | (cevs, ConnectResult.exhausted) => ⟨2, cevs, none⟩
  | (cevs, ConnectResult.raised e) => ⟨1, cevs, some e⟩

/-- Whole process: module-level validation (exit 1 before any side effect
when a required variable is unset or empty), then `main`. -/
def run (cfg : Config) (env : Env) : RunResult :=
  if envVarsValid cfg then main cfg env else ⟨1, [], none⟩

/-- True when the connection phase yielded a live session. -/
def sessionEstablished (env : Env) : Bool :=
  match (create_driver_with_retry env 10 2).2 with
  | ConnectResult.connected => true
  | _ => false

/-- Descriptions of the navigation steps attempted in a trace, in order. -/
def attemptDescs (tr : List Event) : List String :=
  tr.filterMap fun e => match e with
    | Event.stepWait d _ => some d
    | _ => none

/-- Number of session-creation attempts recorded in a trace. -/
def connectCount (tr : List Event) : Nat :=
  (tr.filterMap fun e => match e with
    | Event.connectAttempt i => some i
    | _ => none).length

/-- Timestamps of screenshot files written in a trace. -/
def screenshotStamps (tr : List Event) : List String :=
  tr.filterMap fun e => match e with
    | Event.screenshotSaved t => some t
    | _ => none

/-- Timestamps of page-source files written in a trace. -/
def pageSourceStamps (tr : List Event) : List String :=
  tr.filterMap fun e => match e with
    | Event.pageSourceSaved t => some t
    | _ => none

/-- Number of session-quit operations in a trace. -/
def quitCount (tr : List Event) : Nat :=
  tr.count Event.quitSession

/-- Events that the login/navigation body can emit: everything except
connection attempts, artifact writes, the debug pause and the quit. -/
def benignEvent : Event → Bool
  | Event.connectAttempt _ => false
  | Event.screenshotSaved _ => false
  | Event.pageSourceSaved _ => false
  | Event.debugPause _ => false
  | Event.quitSession => false
  | _ => true

/-- A configuration with all required variables set and no debug pause. -/
def cfgOk : Config :=
  ⟨some "http://selenium:4444/wd/hub", some "http://192.168.31.1", some "secret", 0, "/app/errors"⟩

/-- A configuration whose required password is the empty string. -/
def cfgNoPassword : Config :=
  ⟨some "http://selenium:4444/wd/hub", some "http://192.168.31.1", some "", 0, "/app/errors"⟩

/-- An environment in which every external operation succeeds at once. -/
def envAllOk : Env where
  connect := fun _ => ConnectOutcome.ok
  getOk := true
  passwordFieldAppears := true
  clearOk := true
  sendKeysOk := true
  loginClickOk := true
  passwordFieldDisappears := true
  overlayGoneAfterLogin := true
  overlayGoneAfterFirstStep := true
  clickOutcome := fun _ => WaitClickOutcome.clickable
  timestamp := "20260101-000000"
  makedirsOk := true
  screenshotOk := true
  pageSourceWriteOk := true

/-- An environment whose first two connection attempts fail with a
transport error and whose third succeeds. -/
def envTwoConnectFailures : Env :=
  { envAllOk with connect := fun i => if i < 2 then .transportError else .ok }

/-- An environment in which every connection attempt fails with a
transport error. -/
def envNeverConnects : Env :=
  { envAllOk with connect := fun _ => ConnectOutcome.transportError }

/-- An environment in which the password field never becomes invisible
after submitting credentials. -/
def envLoginStuck : Env :=
  { envAllOk with passwordFieldDisappears := false }

/-- An environment in which the wait for the Reboot button times out. -/
def envRebootButtonStuck : Env :=
  { envAllOk with clickOutcome := fun p => if p.2 = "btnReboot" then .waitTimeout else .clickable }

/-- An environment in which every guarded-click wait times out. -/
def envFirstStepTimesOut : Env :=
  { envAllOk with clickOutcome := fun _ => WaitClickOutcome.waitTimeout }

/-- An environment in which the scroll script raises on the first step. -/
def envFirstStepScrollRaises : Env :=
  { envAllOk with clickOutcome := fun _ => WaitClickOutcome.scrollRaises }

/-- The environment with the two overlay-wait outcomes replaced. -/
def withOverlay (env : Env) (b b' : Bool) : Env :=
  { env with overlayGoneAfterLogin := b, overlayGoneAfterFirstStep := b' }

theorem attemptDescs_append (a b : List Event) :
    attemptDescs (a ++ b) = attemptDescs a ++ attemptDescs b := by
  simp [attemptDescs]

theorem connectCount_append (a b : List Event) :
    connectCount (a ++ b) = connectCount a + connectCount b := by
  simp [connectCount]

theorem screenshotStamps_append (a b : List Event) :
    screenshotStamps (a ++ b) = screenshotStamps a ++ screenshotStamps b := by
  simp [screenshotStamps]

theorem pageSourceStamps_append (a b : List Event) :
    pageSourceStamps (a ++ b) = pageSourceStamps a ++ pageSourceStamps b := by
  simp [pageSourceStamps]

theorem quitCount_append (a b : List Event) :
    quitCount (a ++ b) = quitCount a + quitCount b := by
  simp [quitCount]

theorem connectLoop_events (env : Env) :
    ∀ (f a : Nat), ∀ e ∈ (connectLoop env a f).1, ∃ i, e = Event.connectAttempt i := by
  intro f
  induction f with
  | zero => intro a e he; simp [connectLoop] at he
  | succ f ih =>
    intro a e he
    cases h : env.connect a <;> simp [connectLoop, h] at he
    · exact ⟨a, he⟩
    · rcases he with rfl | he
      · exact ⟨a, rfl⟩
      · exact ih (a + 1) e he
    · exact ⟨a, he⟩

theorem connect_segment_obs (env : Env) (f a : Nat) :
    attemptDescs (connectLoop env a f).1 = []
    ∧ screenshotStamps (connectLoop env a f).1 = []
    ∧ pageSourceStamps (connectLoop env a f).1 = []
    ∧ quitCount (connectLoop env a f).1 = 0
    ∧ Event.navigate ∉ (connectLoop env a f).1 := by
  have hcl := connectLoop_events env f a
  refine ⟨?_, ?_, ?_, ?_, ?_⟩
  · exact List.filterMap_eq_nil_iff.mpr (by intro e he; obtain ⟨i, rfl⟩ := hcl e he; rfl)
  · exact List.filterMap_eq_nil_iff.mpr (by intro e he; obtain ⟨i, rfl⟩ := hcl e he; rfl)
  · exact List.filterMap_eq_nil_iff.mpr (by intro e he; obtain ⟨i, rfl⟩ := hcl e he; rfl)
  · exact List.count_eq_zero.mpr (by intro he; obtain ⟨i, h⟩ := hcl _ he; cases h)
  · intro he; obtain ⟨i, h⟩ := hcl _ he; cases h

theorem connectCount_cons_attempt (i : Nat) (l : List Event) :
    connectCount (Event.connectAttempt i :: l) = connectCount l + 1 := by
  simp [connectCount, List.filterMap_cons]

theorem connectLoop_exhausts (env : Env) :
    ∀ (f a : Nat), (∀ i, i < f → env.connect (a + i) = ConnectOutcome.transportError) →
      (connectLoop env a f).2 = ConnectResult.exhausted
      ∧ connectCount (connectLoop env a f).1 = f := by
  intro f
  induction f with
  | zero => intro a _; exact ⟨rfl, rfl⟩
  | succ f ih =>
    intro a h
    have h0 : env.connect a = ConnectOutcome.transportError := by
      simpa using h 0 (Nat.succ_pos f)
    have hrest : ∀ i, i < f → env.connect (a + 1 + i) = ConnectOutcome.transportError := by
      intro i hi
      have := h (i + 1) (Nat.succ_lt_succ hi)
      simpa [Nat.add_comm, Nat.add_left_comm, Nat.add_assoc] using this
    obtain ⟨h2, hc⟩ := ih (a + 1) hrest
    constructor
    · simp [connectLoop, h0, h2]
    · simp [connectLoop, h0, connectCount_cons_attempt, hc]

theorem connectLoop_connects (env : Env) :
    ∀ (N f a : Nat), N < f →
      (∀ i, i < N → env.connect (a + i) = ConnectOutcome.transportError) →
      env.connect (a + N) = ConnectOutcome.ok →
      (connectLoop env a f).2 = ConnectResult.connected
      ∧ connectCount (connectLoop env a f).1 = N + 1 := by
  intro N
  induction N with
  | zero =>
    intro f a hf _ hok
    cases f with
    | zero => omega
    | succ f =>
      simp only [Nat.add_zero] at hok
      exact ⟨by simp [connectLoop, hok], by simp [connectLoop, hok, connectCount]⟩
  | succ N ih =>
    intro f a hf hfail hok
    cases f with
    | zero => omega
    | succ f =>
      have h0 : env.connect a = ConnectOutcome.transportError := by
        simpa using hfail 0 (Nat.succ_pos N)
      have hrest : ∀ i, i < N → env.connect (a + 1 + i) = ConnectOutcome.transportError := by
        intro i hi
        have := hfail (i + 1) (Nat.succ_lt_succ hi)
        simpa [Nat.add_comm, Nat.add_left_comm, Nat.add_assoc] using this
      have hok' : env.connect (a + 1 + N) = ConnectOutcome.ok := by
        have heq : a + 1 + N = a + (N + 1) := by omega
        rw [heq]; exact hok
      obtain ⟨h2, hc⟩ := ih f (a + 1) (by omega) hrest hok'
      constructor
      · simp [connectLoop, h0, h2]
      · simp [connectLoop, h0, connectCount_cons_attempt, hc]

theorem wait_and_click_benign (env : Env) (s : By) (v d : String) (t : Nat) :
    ∀ e ∈ (wait_and_click env s v d t).2, benignEvent e = true := by
  intro e he
  cases h : env.clickOutcome (s, v) <;> simp only [wait_and_click, h] at he <;>
    fin_cases he <;> rfl

theorem wait_and_click_attempts (env : Env) (s : By) (v d : String) (t : Nat) :
    attemptDescs (wait_and_click env s v d t).2 = [d] := by
  cases h : env.clickOutcome (s, v) <;> simp [wait_and_click, h, attemptDescs]

theorem overlay_benign (gone : Bool) :
    ∀ e ∈ wait_for_overlay_to_disappear gone, benignEvent e = true := by
  intro e he
  cases gone <;> simp [wait_for_overlay_to_disappear] at he
  · rcases he with rfl | rfl <;> rfl
  · subst he; rfl

theorem overlay_attempts (gone : Bool) :
    attemptDescs (wait_for_overlay_to_disappear gone) = [] := by
  cases gone <;> rfl

theorem pre_benign (i : Nat) :
    ∀ e ∈ (if i > 0 then [Event.interStepPause] else []), benignEvent e = true := by
  intro e he
  split at he <;> simp at he
  subst he; rfl

theorem pre_attempts (i : Nat) :
    attemptDescs (if i > 0 then [Event.interStepPause] else []) = [] := by
  split <;> rfl

theorem post_attempts (env : Env) (i : Nat) :
    attemptDescs (if i = 0 then wait_for_overlay_to_disappear env.overlayGoneAfterFirstStep
      else []) = [] := by
  split
  · exact overlay_attempts _
  · rfl

theorem navLoop_benign (env : Env) :
    ∀ (l : List NavStep) (i : Nat), ∀ e ∈ (navLoop env l i).1, benignEvent e = true := by
  intro l
  induction l with
  | nil => intro i e he; simp [navLoop] at he
  | cons s rest ih =>
    intro i e he
    cases h : env.clickOutcome (s.strategy, s.value) <;>
      simp only [navLoop, wait_and_click, h, List.mem_append] at he
    case clickable =>
      rcases he with ((hp | hw) | hpost) | hr
      · exact pre_benign i e hp
      · fin_cases hw <;> rfl
      · revert hpost; split
        · intro hpost; exact overlay_benign _ e hpost
        · intro hpost; simp at hpost
      · exact ih (i + 1) e hr
    all_goals
      rcases he with hp | hw
      · exact pre_benign i e hp
      · fin_cases hw <;> rfl

theorem navLoop_attempts_prefix (env : Env) :
    ∀ (l : List NavStep) (i : Nat),
      attemptDescs (navLoop env l i).1 <+: l.map NavStep.desc := by
  intro l
  induction l with
  | nil => intro i; simp [navLoop, attemptDescs]
  | cons s rest ih =>
    intro i
    cases h : env.clickOutcome (s.strategy, s.value) <;>
      simp only [navLoop, wait_and_click, h, List.map_cons]
    case clickable =>
      rw [attemptDescs_append, attemptDescs_append, attemptDescs_append, pre_attempts]
      have hw : attemptDescs [Event.stepWait s.desc defaultClickTimeout,
          Event.scrolledIntoView s.desc, Event.briefPause, Event.clicked s.desc] = [s.desc] := by
        simp [attemptDescs]
      rw [hw, post_attempts]
      simpa using (List.prefix_cons_inj s.desc).mpr (ih (i + 1))
    all_goals
      rw [attemptDescs_append, pre_attempts]
      refine List.IsPrefix.trans ?_ (List.prefix_cons_inj s.desc |>.mpr List.nil_prefix)
      simp [attemptDescs]

theorem navLoop_attempts_take (env : Env) :
    ∀ (l : List NavStep) (i k : Nat) (hk : k < l.length),
      env.clickOutcome ((l.get ⟨k, hk⟩).strategy, (l.get ⟨k, hk⟩).value) ≠
        WaitClickOutcome.clickable →
      attemptDescs (navLoop env l i).1 <+: (l.map NavStep.desc).take (k + 1) := by
  intro l
  induction l with
  | nil => intro i k hk; simp at hk
  | cons s rest ih =>
    intro i k hk hne
    cases k with
    | zero =>
      simp only [List.get] at hne
      cases h : env.clickOutcome (s.strategy, s.value) <;>
        simp only [navLoop, wait_and_click, h, List.map_cons, List.take_succ_cons,
          List.take_zero]
      case clickable => exact absurd h hne
      all_goals
        rw [attemptDescs_append, pre_attempts]
        simp [attemptDescs]
    | succ k =>
      have hk' : k < rest.length := by simpa using hk
      have hget : (s :: rest).get ⟨k + 1, hk⟩ = rest.get ⟨k, hk'⟩ := rfl
      rw [hget] at hne
      cases h : env.clickOutcome (s.strategy, s.value) <;>
        simp only [navLoop, wait_and_click, h, List.map_cons, List.take_succ_cons]
      case clickable =>
        rw [attemptDescs_append, attemptDescs_append, attemptDescs_append, pre_attempts]
        have hw : attemptDescs [Event.stepWait s.desc defaultClickTimeout,
            Event.scrolledIntoView s.desc, Event.briefPause, Event.clicked s.desc] = [s.desc] := by
          simp [attemptDescs]
        rw [hw, post_attempts]
        simpa using (List.prefix_cons_inj s.desc).mpr (ih (i + 1) k hk' hne)
      all_goals
        rw [attemptDescs_append, pre_attempts]
        refine List.IsPrefix.trans ?_ (List.prefix_cons_inj s.desc |>.mpr List.nil_prefix)
        simp [attemptDescs]

theorem mem_seqE {e : Event} {r : List Event × Option Exc}
    {k : Unit → List Event × Option Exc} (h : e ∈ (seqE r k).1) :
    e ∈ r.1 ∨ e ∈ (k ()).1 := by
  rcases r with ⟨evs, oe⟩
  cases oe <;> simp [seqE] at h <;> tauto

theorem attempts_seqE (r : List Event × Option Exc) (k : Unit → List Event × Option Exc) :
    attemptDescs (seqE r k).1 = attemptDescs r.1 ++
      (match r.2 with
        | none => attemptDescs (k ()).1
        | some _ => []) := by
  rcases r with ⟨evs, oe⟩
  cases oe <;> simp [seqE, attemptDescs_append]

theorem seqE_snd (r : List Event × Option Exc) (k : Unit → List Event × Option Exc) :
    (seqE r k).2 = (match r.2 with
      | some e => some e
      | none => (k ()).2) := by
  rcases r with ⟨evs, oe⟩
  cases oe <;> rfl

theorem body_benign (env : Env) :
    ∀ e ∈ (loginAndNavigate env).1, benignEvent e = true := by
  intro e he
  unfold loginAndNavigate at he
  rcases mem_seqE he with h | he
  · simp [attemptStep] at h; subst h; rfl
  rcases mem_seqE he with h | he
  · simp [attemptStep] at h; subst h; rfl
  rcases mem_seqE he with h | he
  · simp [attemptStep] at h; subst h; rfl
  rcases mem_seqE he with h | he
  · simp [attemptStep] at h; subst h; rfl
  rcases mem_seqE he with h | he
  · simp [attemptStep] at h; subst h; rfl
  rcases mem_seqE he with h | he
  · simp [attemptStep] at h; subst h; rfl
  rcases mem_seqE he with h | he
  · exact overlay_benign _ e h
  · exact navLoop_benign env steps 0 e he

theorem navigate_mem_body (env : Env) : Event.navigate ∈ (loginAndNavigate env).1 := by
  unfold loginAndNavigate
  rcases hg : env.getOk <;> simp [seqE, attemptStep, hg]

theorem benign_obs {l : List Event} (h : ∀ e ∈ l, benignEvent e = true) :
    screenshotStamps l = [] ∧ pageSourceStamps l = []
    ∧ quitCount l = 0 ∧ connectCount l = 0 := by
  refine ⟨?_, ?_, ?_, ?_⟩
  · exact List.filterMap_eq_nil_iff.mpr
      (by intro e he; have := h e he; cases e <;> simp_all [benignEvent])
  · exact List.filterMap_eq_nil_iff.mpr
      (by intro e he; have := h e he; cases e <;> simp_all [benignEvent])
  · exact List.count_eq_zero.mpr
      (by intro hm; have := h _ hm; simp [benignEvent] at this)
  · have : (l.filterMap fun e => match e with
        | Event.connectAttempt i => some i
        | _ => none) = [] := List.filterMap_eq_nil_iff.mpr
      (by intro e he; have := h e he; cases e <;> simp_all [benignEvent])
    simp [connectCount, this]

theorem pause_obs (cfg : Config) :
    attemptDescs (pauseEvents cfg) = [] ∧ screenshotStamps (pauseEvents cfg) = []
    ∧ pageSourceStamps (pauseEvents cfg) = [] ∧ quitCount (pauseEvents cfg) = 0
    ∧ connectCount (pauseEvents cfg) = 0 := by
  unfold pauseEvents
  split <;>
    simp [attemptDescs, screenshotStamps, pageSourceStamps, quitCount, connectCount]

theorem artifacts_obs (env : Env) :
    attemptDescs (save_debug_artifacts env) = []
    ∧ quitCount (save_debug_artifacts env) = 0
    ∧ connectCount (save_debug_artifacts env) = 0
    ∧ Event.navigate ∉ save_debug_artifacts env := by
  rcases hm : env.makedirsOk <;> rcases hs : env.screenshotOk <;>
    rcases hw : env.pageSourceWriteOk <;>
      simp [save_debug_artifacts, hm, hs, hw, attemptDescs, quitCount, connectCount]

theorem quit_obs :
    attemptDescs [Event.quitSession] = [] ∧ screenshotStamps [Event.quitSession] = []
    ∧ pageSourceStamps [Event.quitSession] = [] ∧ quitCount [Event.quitSession] = 1
    ∧ connectCount [Event.quitSession] = 0 := by
  simp [attemptDescs, screenshotStamps, pageSourceStamps, quitCount, connectCount]

theorem main_eq (cfg : Config) (env : Env) :
    main cfg env = match (create_driver_with_retry env 10 2).2 with
      | ConnectResult.connected => afterConnect cfg env (create_driver_with_retry env 10 2).1
      | ConnectResult.exhausted => ⟨2, (create_driver_with_retry env 10 2).1, none⟩
      | ConnectResult.raised e => ⟨1, (create_driver_with_retry env 10 2).1, some e⟩ := by
  unfold main
  rcases hc : create_driver_with_retry env 10 2 with ⟨cevs, cr⟩
  cases cr <;> rfl

theorem afterConnect_eq (cfg : Config) (env : Env) (cevs : List Event) :
    afterConnect cfg env cevs = match (loginAndNavigate env).2 with
      | none => ⟨0, cevs ++ (loginAndNavigate env).1 ++ [Event.quitSession], none⟩
      | some e =>
          ⟨1, cevs ++ (loginAndNavigate env).1 ++ save_debug_artifacts env
            ++ pauseEvents cfg ++ [Event.quitSession], some e⟩ := by
  unfold afterConnect
  rcases hb : loginAndNavigate env with ⟨evs, oe⟩
  cases oe <;> rfl

theorem connectLoop_overlay (env : Env) (b b' : Bool) :
    ∀ (f a : Nat),
      connectLoop (withOverlay env b b') a f
        = connectLoop env a f := by
  intro f
  induction f with
  | zero => intro a; rfl
  | succ f ih =>
    intro a
    have hc : Env.connect (withOverlay env b b') = env.connect := rfl
    simp only [connectLoop, hc]
    cases env.connect a <;> simp [ih]

theorem navLoop_overlay_snd (env : Env) (b b' : Bool) :
    ∀ (l : List NavStep) (i : Nat),
      (navLoop (withOverlay env b b') l i).2
        = (navLoop env l i).2 := by
  intro l
  induction l with
  | nil => intro i; rfl
  | cons s rest ih =>
    intro i
    have hc : Env.clickOutcome (withOverlay env b b') = env.clickOutcome := rfl
    simp only [navLoop, wait_and_click, hc]
    cases h : env.clickOutcome (s.strategy, s.value) <;> simp [h, ih]

theorem body_overlay_snd (env : Env) (b b' : Bool) :
    (loginAndNavigate (withOverlay env b b')).2 = (loginAndNavigate env).2 := by
  have e1 : Env.getOk (withOverlay env b b') = env.getOk := rfl
  have e2 : Env.passwordFieldAppears (withOverlay env b b') = env.passwordFieldAppears := rfl
  have e3 : Env.clearOk (withOverlay env b b') = env.clearOk := rfl
  have e4 : Env.sendKeysOk (withOverlay env b b') = env.sendKeysOk := rfl
  have e5 : Env.loginClickOk (withOverlay env b b') = env.loginClickOk := rfl
  have e6 : Env.passwordFieldDisappears (withOverlay env b b') = env.passwordFieldDisappears := rfl
  rcases hg : env.getOk <;> rcases hv : env.passwordFieldAppears <;>
    rcases hcl : env.clearOk <;> rcases hsk : env.sendKeysOk <;>
    rcases hlc : env.loginClickOk <;> rcases hpd : env.passwordFieldDisappears <;>
    simp [loginAndNavigate, seqE, attemptStep, e1, e2, e3, e4, e5, e6,
      hg, hv, hcl, hsk, hlc, hpd, navLoop_overlay_snd]

/-- C4: if any required configuration value (remote endpoint, admin URL,
admin password) is absent or empty, the run exits with the validation
status 1 with an empty trace: no network call is made and no session is
created. -/
theorem c4_config_validation (cfg : Config) (env : Env)
    (h : envVarsValid cfg = false) :
    run cfg env = ⟨1, [], none⟩ := by
  simp [run, h]

theorem c4_config_validation_witness :
    envVarsValid cfgNoPassword = false
    ∧ run cfgNoPassword envAllOk = ⟨1, [], none⟩ :=
  ⟨by decide, c4_config_validation cfgNoPassword envAllOk (by decide)⟩

/-- C8: the guarded click uses the bounded default 10-second timeout for
the clickability wait, then scrolls the element to viewport center,
pauses briefly, and clicks, in that order; a wait timeout is converted
into a `false` return instead of an exception, and the caller (the
navigation loop) is the one that decides the failure is fatal, raising
the RuntimeError phase failure. -/
theorem c8_guarded_click (env : Env) (s : By) (v d : String) :
    defaultClickTimeout = 10
    ∧ (env.clickOutcome (s, v) = WaitClickOutcome.clickable →
        wait_and_click env s v d defaultClickTimeout =
          (Except.ok true,
            [Event.stepWait d 10, Event.scrolledIntoView d, Event.briefPause,
             Event.clicked d]))
    ∧ (env.clickOutcome (s, v) = WaitClickOutcome.waitTimeout →
        wait_and_click env s v d defaultClickTimeout =
          (Except.ok false, [Event.stepWait d 10]))
    ∧ (∀ (st : NavStep) (rest : List NavStep) (i : Nat),
        env.clickOutcome (st.strategy, st.value) = WaitClickOutcome.waitTimeout →
        (navLoop env (st :: rest) i).2 =
          some (Exc.RuntimeError ("Failed at step: " ++ st.desc))) := by
  refine ⟨rfl, ?_, ?_, ?_⟩
  · intro h; simp [wait_and_click, h, defaultClickTimeout]
  · intro h; simp [wait_and_click, h, defaultClickTimeout]
  · intro st rest i h; simp [navLoop, wait_and_click, h]

theorem c8_guarded_click_witness :
    wait_and_click envAllOk By.ID "btnReboot" "Reboot button" defaultClickTimeout =
      (Except.ok true,
        [Event.stepWait "Reboot button" 10, Event.scrolledIntoView "Reboot button",
         Event.briefPause, Event.clicked "Reboot button"]) :=
  (c8_guarded_click envAllOk By.ID "btnReboot" "Reboot button").2.1 rfl

/-- C9: when the overlay does not disappear within its timeout, the
overlay wait logs a warning and returns normally, and the overlay
outcome (after login and after the first navigation step) never affects
the run's exit code or its caught failure. -/
theorem c9_overlay_nonfatal (cfg : Config) (env : Env) (b b' : Bool) :
    wait_for_overlay_to_disappear false =
      [Event.overlayWait false, Event.overlayWarning]
    ∧ (run cfg (withOverlay env b b')).exitCode = (run cfg env).exitCode
    ∧ (run cfg (withOverlay env b b')).caught = (run cfg env).caught := by
  have hcr : create_driver_with_retry (withOverlay env b b') 10 2 = create_driver_with_retry env 10 2 :=
    connectLoop_overlay env b b' 10 0
  refine ⟨rfl, ?_⟩
  by_cases hval : envVarsValid cfg = true
  · simp only [run, hval, if_true]
    simp only [main_eq, hcr]
    rcases h2 : (create_driver_with_retry env 10 2).2 with _ | _ | e
    · simp only [afterConnect_eq, body_overlay_snd]
      rcases hb : (loginAndNavigate env).2 with _ | e <;> simp
    · simp
    · simp
  · simp [run, hval]

/-- C2: every run exits with status 0, 1 or 2; 0 exactly when validation,
connection and the whole login/navigation body succeed; 1 exactly when
startup validation fails or an automation failure is caught by the
top-level handler; 2 exactly when the connection retry budget is
exhausted, and that path bypasses the top-level failure handler (nothing
is caught). -/
theorem c2_exit_codes (cfg : Config) (env : Env) :
    ((run cfg env).exitCode = 0 ∨ (run cfg env).exitCode = 1 ∨ (run cfg env).exitCode = 2)
    ∧ ((run cfg env).exitCode = 0 ↔
        envVarsValid cfg = true
        ∧ (create_driver_with_retry env 10 2).2 = ConnectResult.connected
        ∧ (loginAndNavigate env).2 = none)
    ∧ ((run cfg env).exitCode = 1 ↔
        envVarsValid cfg = false ∨ (run cfg env).caught.isSome = true)
    ∧ ((run cfg env).exitCode = 2 ↔
        envVarsValid cfg = true
        ∧ (create_driver_with_retry env 10 2).2 = ConnectResult.exhausted)
    ∧ ((run cfg env).exitCode = 2 → (run cfg env).caught = none) := by
  by_cases hval : envVarsValid cfg = true
  · simp only [run, hval, if_true, main_eq]
    rcases h2 : (create_driver_with_retry env 10 2).2 with _ | _ | e
    · simp only [afterConnect_eq]
      rcases hb : (loginAndNavigate env).2 with _ | e <;> simp [hval, h2, hb]
    · simp [hval, h2]
    · simp [hval, h2]
  · have hval' : envVarsValid cfg = false := by simpa using hval
    simp [run, hval']

theorem c2_exit_codes_witness :
    (run cfgOk envNeverConnects).exitCode = 2
    ∧ (run cfgOk envNeverConnects).caught = none := by
  refine ⟨by decide, (c2_exit_codes cfgOk envNeverConnects).2.2.2.2 (by decide)⟩

/-- C3: with N transport failures followed by a success (N strictly below
the retry limit 10), the run makes exactly N+1 session-creation attempts
and then proceeds (the admin page navigation happens); when all 10
attempts fail it exits with status 2 and performs no login and no
navigation-step attempt. -/
theorem c3_connection_retry (cfg : Config) (env : Env) (N : Nat)
    (hvalid : envVarsValid cfg = true) (hN : N < 10) :
    ((∀ i, i < N → env.connect i = ConnectOutcome.transportError) →
      env.connect N = ConnectOutcome.ok →
      connectCount (run cfg env).trace = N + 1
      ∧ Event.navigate ∈ (run cfg env).trace)
    ∧ ((∀ i, i < 10 → env.connect i = ConnectOutcome.transportError) →
      (run cfg env).exitCode = 2
      ∧ Event.navigate ∉ (run cfg env).trace
      ∧ attemptDescs (run cfg env).trace = []) := by
  constructor
  · intro hfail hok
    obtain ⟨h2, hcnt⟩ := connectLoop_connects env N 10 0 hN
      (by intro i hi; simpa using hfail i hi) (by simpa using hok)
    simp only [run, hvalid, if_true, main_eq]
    rw [show create_driver_with_retry env 10 2 = connectLoop env 0 10 from rfl]
    simp only [h2]
    simp only [afterConnect_eq]
    rcases hb : (loginAndNavigate env).2 with _ | e
    · constructor
      · simp only [RunResult.trace]
        rw [connectCount_append, connectCount_append, hcnt,
          (benign_obs (body_benign env)).2.2.2, quit_obs.2.2.2.2]
      · have hnav := navigate_mem_body env
        simp only [RunResult.trace, List.mem_append]
        tauto
    · constructor
      · simp only [RunResult.trace]
        rw [connectCount_append, connectCount_append, connectCount_append,
          connectCount_append, hcnt, (benign_obs (body_benign env)).2.2.2,
          (artifacts_obs env).2.2.1, (pause_obs cfg).2.2.2.2, quit_obs.2.2.2.2]
      · have hnav := navigate_mem_body env
        simp only [RunResult.trace, List.mem_append]
        tauto
  · intro hfail
    obtain ⟨h2, _⟩ := connectLoop_exhausts env 10 0 (by intro i hi; simpa using hfail i hi)
    simp only [run, hvalid, if_true, main_eq]
    rw [show create_driver_with_retry env 10 2 = connectLoop env 0 10 from rfl]
    simp only [h2]
    exact ⟨by simp, (connect_segment_obs env 10 0).2.2.2.2, (connect_segment_obs env 10 0).1⟩

theorem c3_connection_retry_witness :
    connectCount (run cfgOk envTwoConnectFailures).trace = 3
    ∧ Event.navigate ∈ (run cfgOk envTwoConnectFailures).trace :=
  (c3_connection_retry cfgOk envTwoConnectFailures 2 (by decide) (by decide)).1
    (by decide) (by decide)

/-- C5: the session-close (quit) operation is invoked exactly once on
every run in which a session was created (success, phase failure, and
diagnostics failure alike), and never when no session was created
(validation failure, connection exhaustion, or a session-creation
exception). -/
theorem c5_teardown (cfg : Config) (env : Env) :
    quitCount (run cfg env).trace =
      if envVarsValid cfg && sessionEstablished env then 1 else 0 := by
  by_cases hval : envVarsValid cfg = true
  · simp only [run, hval, if_true, main_eq]
    rcases h2 : (create_driver_with_retry env 10 2).2 with _ | _ | e
    · have hs : sessionEstablished env = true := by simp [sessionEstablished, h2]
      simp only [afterConnect_eq]
      rcases hb : (loginAndNavigate env).2 with _ | e
      · simp only [RunResult.trace, hval, hs, Bool.and_self, if_true]
        rw [show create_driver_with_retry env 10 2 = connectLoop env 0 10 from rfl,
          quitCount_append, quitCount_append, (connect_segment_obs env 10 0).2.2.2.1,
          (benign_obs (body_benign env)).2.2.1, quit_obs.2.2.2.1]
      · simp only [RunResult.trace, hval, hs, Bool.and_self, if_true]
        rw [show create_driver_with_retry env 10 2 = connectLoop env 0 10 from rfl,
          quitCount_append, quitCount_append, quitCount_append, quitCount_append,
          (connect_segment_obs env 10 0).2.2.2.1, (benign_obs (body_benign env)).2.2.1,
          (artifacts_obs env).2.1, (pause_obs cfg).2.2.2.1, quit_obs.2.2.2.1]
    · have hs : sessionEstablished env = false := by simp [sessionEstablished, h2]
      simp only [RunResult.trace, hval, hs, Bool.and_false, if_false]
      rw [show create_driver_with_retry env 10 2 = connectLoop env 0 10 from rfl]
      exact (connect_segment_obs env 10 0).2.2.2.1
    · have hs : sessionEstablished env = false := by simp [sessionEstablished, h2]
      simp only [RunResult.trace, hval, hs, Bool.and_false, if_false]
      rw [show create_driver_with_retry env 10 2 = connectLoop env 0 10 from rfl]
      exact (connect_segment_obs env 10 0).2.2.2.1
  · have hval' : envVarsValid cfg = false := by simpa using hval
    simp [run, hval', quitCount]

/-- C6: on any failure caught after a session exists, the run still exits
with status 1 carrying the original failure whatever happens while
writing diagnostics, and when the artifact writes succeed exactly one
screenshot file and one page-markup file are recorded, both with the
single timestamp computed once for the capture. -/
theorem c6_diagnostics (cfg : Config) (env : Env) (e : Exc)
    (hvalid : envVarsValid cfg = true)
    (hconn : (create_driver_with_retry env 10 2).2 = ConnectResult.connected)
    (hfail : (loginAndNavigate env).2 = some e) :
    (run cfg env).exitCode = 1
    ∧ (run cfg env).caught = some e
    ∧ (env.makedirsOk = true → env.screenshotOk = true → env.pageSourceWriteOk = true →
        screenshotStamps (run cfg env).trace = [env.timestamp]
        ∧ pageSourceStamps (run cfg env).trace = [env.timestamp]) := by
  simp only [run, hvalid, if_true, main_eq, hconn, afterConnect_eq, hfail]
  refine ⟨by first | rfl | trivial, by first | rfl | trivial, ?_⟩
  intro hm hs hw
  have hart : save_debug_artifacts env =
      [Event.screenshotSaved env.timestamp, Event.pageSourceSaved env.timestamp] := by
    simp [save_debug_artifacts, hm, hs, hw]
  try simp only [RunResult.trace]
  rw [show create_driver_with_retry env 10 2 = connectLoop env 0 10 from rfl, hart]
  constructor
  · rw [screenshotStamps_append, screenshotStamps_append, screenshotStamps_append,
      screenshotStamps_append, (connect_segment_obs env 10 0).2.1,
      (benign_obs (body_benign env)).1, (pause_obs cfg).2.1, quit_obs.2.1]
    simp [screenshotStamps]
  · rw [pageSourceStamps_append, pageSourceStamps_append, pageSourceStamps_append,
      pageSourceStamps_append, (connect_segment_obs env 10 0).2.2.1,
      (benign_obs (body_benign env)).2.1, (pause_obs cfg).2.2.1, quit_obs.2.2.1]
    simp [pageSourceStamps]

theorem c6_diagnostics_witness :
    (run cfgOk envFirstStepTimesOut).exitCode = 1
    ∧ (run cfgOk envFirstStepTimesOut).caught =
        some (Exc.RuntimeError "Failed at step: Advanced navbar item")
    ∧ screenshotStamps (run cfgOk envFirstStepTimesOut).trace = ["20260101-000000"]
    ∧ pageSourceStamps (run cfgOk envFirstStepTimesOut).trace = ["20260101-000000"] := by
  have h := c6_diagnostics cfgOk envFirstStepTimesOut
    (Exc.RuntimeError "Failed at step: Advanced navbar item")
    (by decide) (by decide) (by decide)
  exact ⟨h.1, h.2.1, (h.2.2 rfl rfl rfl).1, (h.2.2 rfl rfl rfl).2⟩

/-- C7: when login is submitted but the password field never becomes
invisible within its bounded wait, the run fails (exit status 1 with the
timeout as the caught failure) and no navigation step is ever
attempted. -/
theorem c7_login_timeout (cfg : Config) (env : Env)
    (hvalid : envVarsValid cfg = true)
    (hconn : (create_driver_with_retry env 10 2).2 = ConnectResult.connected)
    (hget : env.getOk = true) (hvis : env.passwordFieldAppears = true)
    (hclear : env.clearOk = true) (hsend : env.sendKeysOk = true)
    (hlogin : env.loginClickOk = true)
    (hdis : env.passwordFieldDisappears = false) :
    (run cfg env).exitCode = 1
    ∧ (run cfg env).caught = some Exc.TimeoutException
    ∧ attemptDescs (run cfg env).trace = [] := by
  have hbody : loginAndNavigate env =
      ([Event.navigate, Event.waitPasswordVisible, Event.clearPassword,
        Event.sendPasswordKeys, Event.clickLoginButton, Event.waitPasswordInvisible],
        some Exc.TimeoutException) := by
    simp [loginAndNavigate, seqE, attemptStep, hget, hvis, hclear, hsend, hlogin, hdis]
  simp only [run, hvalid, if_true, main_eq, hconn, afterConnect_eq, hbody]
  refine ⟨by first | rfl | trivial, by first | rfl | trivial, ?_⟩
  try simp only [RunResult.trace]
  rw [show create_driver_with_retry env 10 2 = connectLoop env 0 10 from rfl]
  rw [attemptDescs_append, attemptDescs_append, attemptDescs_append, attemptDescs_append,
    (connect_segment_obs env 10 0).1, (artifacts_obs env).1, (pause_obs cfg).1]
  simp [attemptDescs]

theorem c7_login_timeout_witness :
    (run cfgOk envLoginStuck).exitCode = 1
    ∧ (run cfgOk envLoginStuck).caught = some Exc.TimeoutException
    ∧ attemptDescs (run cfgOk envLoginStuck).trace = [] :=
  c7_login_timeout cfgOk envLoginStuck (by decide) (by decide) rfl rfl rfl rfl rfl rfl

/-- C10: the guarded click converts exactly the wait timeout and the
invalid selector into a `false` return; an exception raised by the
scroll script or by the click itself propagates out of it, and when the
scroll script raises on the first navigation step the failure caught at
the top level is that exception and not the RuntimeError step-failure
message, so the failure log does not carry the failing step's
description. -/
theorem c10_exception_propagation (cfg : Config) (env : Env)
    (hvalid : envVarsValid cfg = true)
    (hconn : (create_driver_with_retry env 10 2).2 = ConnectResult.connected)
    (hget : env.getOk = true) (hvis : env.passwordFieldAppears = true)
    (hclear : env.clearOk = true) (hsend : env.sendKeysOk = true)
    (hlogin : env.loginClickOk = true) (hdis : env.passwordFieldDisappears = true)
    (hstep : env.clickOutcome ((steps.get ⟨0, by decide⟩).strategy,
        (steps.get ⟨0, by decide⟩).value) = WaitClickOutcome.scrollRaises) :
    (∀ (env₂ : Env) (s : By) (v d : String) (t : Nat),
        (env₂.clickOutcome (s, v) = WaitClickOutcome.waitTimeout →
          (wait_and_click env₂ s v d t).1 = Except.ok false)
        ∧ (env₂.clickOutcome (s, v) = WaitClickOutcome.invalidSelector →
          (wait_and_click env₂ s v d t).1 = Except.ok false)
        ∧ (env₂.clickOutcome (s, v) = WaitClickOutcome.scrollRaises →
          (wait_and_click env₂ s v d t).1 = Except.error Exc.JavascriptException)
        ∧ (env₂.clickOutcome (s, v) = WaitClickOutcome.clickRaises →
          (wait_and_click env₂ s v d t).1 =
            Except.error Exc.ElementClickInterceptedException))
    ∧ (run cfg env).caught = some Exc.JavascriptException
    ∧ (∀ msg : String, (run cfg env).caught ≠ some (Exc.RuntimeError msg)) := by
  have hstep' : env.clickOutcome (By.XPATH,
      "//div[@id=\x27nav\x27]//a[contains(text(), \x27Advanced\x27)]") =
      WaitClickOutcome.scrollRaises := hstep
  have hbody : (loginAndNavigate env).2 = some Exc.JavascriptException := by
    simp [loginAndNavigate, seqE, attemptStep, hget, hvis, hclear, hsend, hlogin, hdis,
      navLoop, steps, wait_and_click, hstep']
  refine ⟨?_, ?_⟩
  · intro env₂ s v d t
    refine ⟨?_, ?_, ?_, ?_⟩ <;> intro h <;> simp [wait_and_click, h]
  · simp only [run, hvalid, if_true, main_eq, hconn, afterConnect_eq]
    rcases hb : (loginAndNavigate env).2 with _ | e
    · rw [hb] at hbody; cases hbody
    · rw [hb] at hbody
      obtain rfl : e = Exc.JavascriptException := by
        simpa using hbody
      exact ⟨by first | rfl | trivial, by intro msg h; simp at h⟩

theorem c10_exception_propagation_witness :
    (run cfgOk envFirstStepScrollRaises).caught = some Exc.JavascriptException
    ∧ ∀ msg : String, (run cfgOk envFirstStepScrollRaises).caught ≠
        some (Exc.RuntimeError msg) := by
  have h := c10_exception_propagation cfgOk envFirstStepScrollRaises
    (by decide) (by decide) rfl rfl rfl rfl rfl rfl rfl
  exact ⟨h.2.1, h.2.2⟩

theorem body_attempts (env : Env) :
    attemptDescs (loginAndNavigate env).1 =
      if env.getOk && env.passwordFieldAppears && env.clearOk && env.sendKeysOk
          && env.loginClickOk && env.passwordFieldDisappears
      then attemptDescs (navLoop env steps 0).1 else [] := by
  rcases hg : env.getOk <;> rcases hv : env.passwordFieldAppears <;>
    rcases hcl : env.clearOk <;> rcases hsk : env.sendKeysOk <;>
    rcases hlc : env.loginClickOk <;> rcases hpd : env.passwordFieldDisappears <;>
    rcases ho : env.overlayGoneAfterLogin <;>
    simp [loginAndNavigate, seqE, attemptStep, hg, hv, hcl, hsk, hlc, hpd, ho,
      wait_for_overlay_to_disappear, attemptDescs]

/-- C1: the five navigation steps are attempted in their fixed order (the
descriptions of the attempted steps always form a prefix of the fixed
step list), and once the guarded click of step k fails, no attempt is
ever made on any later step. -/
theorem c1_navigation_order (cfg : Config) (env : Env) :
    (attemptDescs (run cfg env).trace <+: stepDescs)
    ∧ (∀ (k j : Nat) (hk : k < steps.length) (hj : j < steps.length),
        env.clickOutcome ((steps.get ⟨k, hk⟩).strategy, (steps.get ⟨k, hk⟩).value) ≠
          WaitClickOutcome.clickable →
        k < j →
        (steps.get ⟨j, hj⟩).desc ∉ attemptDescs (run cfg env).trace) := by
  have master : attemptDescs (run cfg env).trace = attemptDescs (navLoop env steps 0).1
      ∨ attemptDescs (run cfg env).trace = [] := by
    by_cases hval : envVarsValid cfg = true
    · simp only [run, hval, if_true, main_eq]
      rw [show create_driver_with_retry env 10 2 = connectLoop env 0 10 from rfl]
      rcases h2 : (connectLoop env 0 10).2 with _ | _ | e
      · simp only [h2, afterConnect_eq]
        rcases hb : (loginAndNavigate env).2 with _ | e
        · try simp only [RunResult.trace]
          rw [attemptDescs_append, attemptDescs_append,
            (connect_segment_obs env 10 0).1, body_attempts]
          rcases hcond : (env.getOk && env.passwordFieldAppears && env.clearOk
              && env.sendKeysOk && env.loginClickOk && env.passwordFieldDisappears) <;>
            simp [attemptDescs]
        · try simp only [RunResult.trace]
          rw [attemptDescs_append, attemptDescs_append, attemptDescs_append,
            attemptDescs_append, (connect_segment_obs env 10 0).1, body_attempts,
            (artifacts_obs env).1, (pause_obs cfg).1]
          rcases hcond : (env.getOk && env.passwordFieldAppears && env.clearOk
              && env.sendKeysOk && env.loginClickOk && env.passwordFieldDisappears) <;>
            simp [attemptDescs]
      · simp only [h2]
        exact Or.inr (connect_segment_obs env 10 0).1
      · simp only [h2]
        exact Or.inr (connect_segment_obs env 10 0).1
    · have hval' : envVarsValid cfg = false := by simpa using hval
      right; simp [run, hval', attemptDescs]
  constructor
  · rcases master with hM | hM
    · rw [hM]
      exact navLoop_attempts_prefix env steps 0
    · rw [hM]
      exact List.nil_prefix
  · intro k j hk hj hne hkj hmem
    have hk5 : k < 5 := by simpa [steps] using hk
    have hj5 : j < 5 := by simpa [steps] using hj
    rcases master with hM | hM
    · rw [hM] at hmem
      have hsub := (navLoop_attempts_take env steps 0 k hk hne).subset hmem
      interval_cases k <;> interval_cases j <;>
        first
          | omega
          | (simp [steps] at hsub <;> exact absurd hsub (by decide))
    · rw [hM] at hmem
      simp at hmem

theorem c1_navigation_order_witness :
    "Reboot confirmation 1" ∉ attemptDescs (run cfgOk envRebootButtonStuck).trace := by
  have h := (c1_navigation_order cfgOk envRebootButtonStuck).2 2 3
    (by decide) (by decide) (by decide) (by decide)
  simpa [steps] using h

end MiWifiReboot
